import Mathlib

/-!
Shallow embedding of torch/_inductor/kernel/mm_common.py: the shape and
launch-configuration helpers for the matmul kernel templates, together with
theorems checking the specified behaviour of each helper.

External collaborators that are not part of the given sources (the
static-resolution queries of PythonWrapperCodegen, the shape-guard service
V.graph.sizevars, the ceiling-division primitive supplied by SymbolicGridFn,
the ambient configuration flags, and the V.ops expression builders) are
modelled explicitly, as documented on each such definition.
-/

namespace MMCommon

/-- A shape dimension: either statically known to be a concrete non-negative
integer, or an unresolved symbolic (dynamic) quantity. -/
inductive Dim where
  | static (n : Nat)
  | dynamic
  deriving DecidableEq, Repr

/-- Element types that appear in the matmul lowering. -/
inductive DType where
  | float16
  | bfloat16
  | float32
  | float64
  | int8
  | int32
  | int64
  deriving DecidableEq, Repr

/-- The textual name of a dtype, as it appears after the torch. qualifier. -/
def dtypeName : DType → String
  | .float16 => "float16"
  | .bfloat16 => "bfloat16"
  | .float32 => "float32"
  | .float64 => "float64"
  | .int8 => "int8"
  | .int32 => "int32"
  | .int64 => "int64"

/-- Modelled from the spec: the static-resolution query tryResolveStatic
(PythonWrapperCodegen.statically_known_int_or_none is not part of the given
sources): a static dimension resolves to its integer, a dynamic one does not. -/
def statically_known_int_or_none : Dim → Option Nat
  | .static n => some n
  | .dynamic => none

/-- Modelled from the spec: the list form of the static-resolution query
(PythonWrapperCodegen.statically_known_list_of_ints_or_none): some list of
integers when every dimension resolves, none otherwise. -/
def statically_known_list_of_ints_or_none (l : List Dim) : Option (List Nat) :=
  l.mapM statically_known_int_or_none

/-- An output layout, as consumed by mm_options and the staticness check and
as built by FixedLayout in mm_args: a device id, a dtype and a size. -/
structure Layout where
  device : Nat
  dtype : DType
  size : List Dim
  deriving DecidableEq, Repr

/-- The scan of _is_static_problem over the dimensions when the shape is not
fully static: true when some dimension statically resolves to exactly 0
(the python loop sets nonzero to False and breaks there). -/
def anyResolvedZero : List Dim → Bool
  | [] => false
  | s :: rest =>
    match statically_known_int_or_none s with
    | some 0 => true
    | _ => anyResolvedZero rest

/-- _is_static_problem: classify an output layout as (is_static, is_nonzero). -/
def _is_static_problem (layout : Layout) : Bool × Bool :=
  let static_shape := true
  match statically_known_list_of_ints_or_none layout.size with
  | none => (false, ! anyResolvedZero layout.size)
  | some static_size =>
    let numel := static_size.foldl (· * ·) 1
    (static_shape, decide (numel > 0))

/-- Modelled from the spec: the external ceiling-division primitive that the
SymbolicGridFn wrapper passes to the grid functions (not part of the given
sources); on naturals it is the usual (a + b - 1) / b ceiling division. -/
def cdiv (a b : Nat) : Nat := (a + b - 1) / b

/-- The meta dictionary consumed by the grid functions: the tile sizes and,
for persistent kernels, the streaming-multiprocessor count. -/
structure GridMeta where
  BLOCK_M : Nat
  BLOCK_N : Nat
  NUM_SMS : Nat
  deriving DecidableEq, Repr

/-- mm_grid: the CUDA grid size for the matmul triton templates. -/
def mm_grid (m n : Nat) (meta : GridMeta) : Nat × Nat × Nat :=
  (cdiv m meta.BLOCK_M * cdiv n meta.BLOCK_N, 1, 1)

/-- persistent_mm_grid: the grid for persistent kernels. -/
def persistent_mm_grid (M N : Nat) (meta : GridMeta) : Nat × Nat × Nat :=
  (min meta.NUM_SMS (cdiv M meta.BLOCK_M * cdiv N meta.BLOCK_N), 1, 1)

/-- acc_type: the accumulator type string for a given output dtype; the
narrow floating formats are widened to tl.float32. -/
def acc_type (dtype : DType) : String :=
  if dtype = .float16 ∨ dtype = .bfloat16 then "tl.float32"
  else "tl." ++ dtypeName dtype

/-- A candidate triton configuration: its kwargs (the block-tiling sizes) and
its scheduling fields, as read by mm_options. -/
structure TritonConfig where
  BLOCK_M : Nat
  BLOCK_N : Nat
  BLOCK_K : Nat
  num_stages : Nat
  num_warps : Nat
  deriving DecidableEq, Repr

/-- Modelled from the spec: the ambient configuration that mm_options reads
(torch.backends.cuda.matmul.allow_tf32 and
inductor_config.force_same_precision), passed explicitly here. -/
structure Ambient where
  allow_tf32 : Bool
  force_same_precision : Bool
  deriving DecidableEq, Repr

/-- The option dictionary returned by mm_options: the computed entries
followed by the fields splatted from config.kwargs. -/
structure LaunchConfig where
  GROUP_M : Nat
  EVEN_K : Bool
  ALLOW_TF32 : Bool
  ACC_TYPE : String
  num_stages : Nat
  num_warps : Nat
  BLOCK_M : Nat
  BLOCK_N : Nat
  BLOCK_K : Nat
  deriving DecidableEq, Repr

/-- mm_options: common options to the matmul triton templates. The symbolic
gcd of sympy is modelled on statically known dimensions by Nat.gcd. -/
def mm_options (amb : Ambient) (config : TritonConfig) (sym_m sym_n sym_k : Nat)
    (layout : Layout) : LaunchConfig :=
  let even_k_symbolic := Nat.gcd sym_k config.BLOCK_K == config.BLOCK_K
  let allow_tf32 := amb.allow_tf32 &&
    (! amb.force_same_precision ||
      (sym_m % 16 == 0 && sym_n % 16 == 0 && sym_k % 8 == 0))
  { GROUP_M := 8
    EVEN_K := even_k_symbolic
    ALLOW_TF32 := allow_tf32
    ACC_TYPE := acc_type layout.dtype
    num_stages := config.num_stages
    num_warps := config.num_warps
    BLOCK_M := config.BLOCK_M
    BLOCK_N := config.BLOCK_N
    BLOCK_K := config.BLOCK_K }

/-- A kernel choice candidate; its payload is irrelevant to the fallback
policy, which only inspects the length of the candidate list. -/
structure ChoiceCaller where
  id : Nat
  deriving DecidableEq, Repr

/-- Modelled from the spec: the ambient configuration read by
should_fallback_to_aten (use_aten_gemm_kernels and
inductor_config.autotune_fallback_to_aten), passed explicitly here. -/
structure FallbackConfig where
  use_aten_gemm_kernels : Bool
  autotune_fallback_to_aten : Bool
  deriving DecidableEq, Repr

/-- should_fallback_to_aten: whether to fall back to the ATen backend when
the candidate list is empty (the log warnings carry no return value and are
dropped from the model). -/
def should_fallback_to_aten (cfg : FallbackConfig) (choices : List ChoiceCaller) :
    Bool :=
  if choices.length == 0 && ! cfg.use_aten_gemm_kernels then
    if cfg.autotune_fallback_to_aten then true
    else false
  else false

/-- The expressions built by the V.ops handlers used in addmm_epilogue,
modelled as free syntax trees: an opaque input value, a typed scalar
constant, a product and a sum. -/
inductive OpExpr where
  | input (name : String)
  | constant (value : ℚ) (dtype : DType)
  | mul (a b : OpExpr)
  | add (a b : OpExpr)
  deriving DecidableEq, Repr

/-- The number of mul nodes in an expression. -/
def mulCount : OpExpr → Nat
  | .input _ => 0
  | .constant _ _ => 0
  | .mul a b => mulCount a + mulCount b + 1
  | .add a b => mulCount a + mulCount b

/-- addmm_epilogue: returns the epilogue that scales the accumulator by
alpha and the bias by beta (each only when the scalar is not 1) and adds
them. Scalars are modelled as rationals. -/
def addmm_epilogue (dtype : DType) (alpha beta : ℚ) :
    OpExpr → OpExpr → OpExpr :=
  fun acc bias =>
    let acc := if alpha ≠ 1 then OpExpr.mul acc (OpExpr.constant alpha dtype) else acc
    let bias := if beta ≠ 1 then OpExpr.mul bias (OpExpr.constant beta dtype) else bias
    OpExpr.add acc bias

/-- An input operand as seen by mm_args after realize_inputs (which forces
materialization and leaves device, dtype and size unchanged). -/
structure TensorBox where
  device : Nat
  dtype : DType
  size : List Dim
  deriving DecidableEq, Repr

/-- The failures that can surface from mm_args: a statically provable
dimension mismatch from the shape-guard service, the assertion that rejects
supplying both a layout and an out_dtype, and a python unpacking error when
an operand has fewer than two dimensions. -/
inductive MMError where
  | GuardViolation
  | ConflictingSpecification
  | UnpackError
  deriving DecidableEq, Repr

/-- Modelled from the spec: the shape-guard service assertDimensionsEqual
(V.graph.sizevars.guard_equals is not part of the given sources). It fails
with GuardViolation exactly when both dimensions are statically known and
unequal; otherwise the equality is deferred as a runtime guard and the
more-resolved dimension is returned. -/
def guard_equals : Dim → Dim → Except MMError Dim
  | .static a, .static b =>
    if a = b then .ok (.static a) else .error .GuardViolation
  | .static a, .dynamic => .ok (.static a)
  | .dynamic, .static b => .ok (.static b)
  | .dynamic, .dynamic => .ok .dynamic

/-- Split a shape into its batch-dimension part and its two trailing matrix
dimensions, as the starred unpacking in mm_args does; none when the shape
has fewer than two dimensions. -/
def splitLast2 (l : List Dim) : Option (List Dim × Dim × Dim) :=
  match l.reverse with
  | q :: p :: rest => some (rest.reverse, p, q)
  | _ => none

/-- Doubling of a dimension, as k2 = k2 * 2 does on a size expression: a
static dimension is doubled, a dynamic one stays dynamic. -/
def dimMulTwo : Dim → Dim
  | .static n => .static (n * 2)
  | .dynamic => .dynamic

/-- The tuple returned by mm_args: [m, n, k, layout, mat1, mat2, *others]. -/
structure MMArgsResult where
  m : Dim
  n : Dim
  k : Dim
  layout : Layout
  mat1 : TensorBox
  mat2 : TensorBox
  others : List TensorBox
  deriving DecidableEq, Repr

/-- mm_args: common argument processing for mm, bmm, addmm and friends.
Batch dimensions are guarded pairwise, the contraction dimensions are
guarded (after doubling k2 when use_4x2_dim is set), and the output layout
is either built from mat1 or taken from the caller. The expand of the extra
epilogue operands to the output size is modelled as replacing their size by
the layout size. -/
def mm_args (mat1 mat2 : TensorBox) (others : List TensorBox)
    (layout : Option Layout) (out_dtype : Option DType)
    (use_4x2_dim : Bool) (mat2_transposed : Bool) :
    Except MMError MMArgsResult :=
  match splitLast2 mat1.size with
  | none => .error .UnpackError
  | some (b1, m, k1) =>
    match splitLast2 mat2.size with
    | none => .error .UnpackError
    | some (b2, d1, d2) =>
      let n := if mat2_transposed then d1 else d2
      let k2 := if mat2_transposed then d2 else d1
      match (List.zip b1 b2).mapM (fun p => guard_equals p.1 p.2) with
      | .error e => .error e
      | .ok b =>
        let k2 := if use_4x2_dim then dimMulTwo k2 else k2
        match guard_equals k1 k2 with
        | .error e => .error e
        | .ok k =>
          match layout, out_dtype with
          | none, od =>
            let lay : Layout := ⟨mat1.device, od.getD mat1.dtype, b ++ [m, n]⟩
            .ok ⟨m, n, k, lay, mat1, mat2,
              others.map fun t => { t with size := lay.size }⟩
          | some _, some _ => .error .ConflictingSpecification
          | some l, none =>
            .ok ⟨m, n, k, l, mat1, mat2,
              others.map fun t => { t with size := l.size }⟩

/-- The behaviour claimed by the spec for the doubled-contraction flag,
written down for comparison with mm_args: identical processing except that
the doubling is applied to the contraction dimension of the LEFT operand
(k1, the last dimension of mat1) instead of the right one. -/
def mm_args_claimed (mat1 mat2 : TensorBox) (others : List TensorBox)
    (layout : Option Layout) (out_dtype : Option DType)
    (use_4x2_dim : Bool) (mat2_transposed : Bool) :
    Except MMError MMArgsResult :=
  match splitLast2 mat1.size with
  | none => .error .UnpackError
  | some (b1, m, k1) =>
    match splitLast2 mat2.size with
    | none => .error .UnpackError
    | some (b2, d1, d2) =>
      let n := if mat2_transposed then d1 else d2
      let k2 := if mat2_transposed then d2 else d1
      match (List.zip b1 b2).mapM (fun p => guard_equals p.1 p.2) with
      | .error e => .error e
      | .ok b =>
        let k1 := if use_4x2_dim then dimMulTwo k1 else k1
        match guard_equals k1 k2 with
        | .error e => .error e
        | .ok k =>
          match layout, out_dtype with
          | none, od =>
            let lay : Layout := ⟨mat1.device, od.getD mat1.dtype, b ++ [m, n]⟩
            .ok ⟨m, n, k, lay, mat1, mat2,
              others.map fun t => { t with size := lay.size }⟩
          | some _, some _ => .error .ConflictingSpecification
          | some l, none =>
            .ok ⟨m, n, k, l, mat1, mat2,
              others.map fun t => { t with size := l.size }⟩

/-- Pre-double the contraction dimension of a right operand: the last
dimension when the operand is transposed, the second-to-last otherwise. -/
def doubleContraction (mat2_transposed : Bool) (t : TensorBox) : TensorBox :=
  match splitLast2 t.size with
  | some (b, d1, d2) =>
    if mat2_transposed then { t with size := b ++ [d1, dimMulTwo d2] }
    else { t with size := b ++ [dimMulTwo d1, d2] }
  | none => t

/-! ### Helper lemmas -/

/-- Ceiling division on naturals agrees with the rational ceiling. -/
theorem cdiv_eq_ceil (a b : Nat) (hb : 0 < b) :
    cdiv a b = ⌈(a : ℚ) / (b : ℚ)⌉₊ := by
  refine (eq_of_forall_ge_iff fun c => ?_).symm
  rw [Nat.ceil_le, div_le_iff₀ (by exact_mod_cast hb),
    show ((c : ℚ) * (b : ℚ)) = ((b * c : Nat) : ℚ) by push_cast; ring,
    Nat.cast_le]
  unfold cdiv
  rw [Nat.div_le_iff_le_mul_add_pred hb]
  generalize b * c = t
  omega

/-- The scan for a statically-resolved zero dimension finds one exactly when
a static zero dimension is present. -/
theorem anyResolvedZero_eq (l : List Dim) :
    anyResolvedZero l = decide (Dim.static 0 ∈ l) := by
  induction l with
  | nil => simp [anyResolvedZero]
  | cons d rest ih =>
    cases d with
    | dynamic => simp [anyResolvedZero, statically_known_int_or_none, ih]
    | static n =>
      cases n with
      | zero => simp [anyResolvedZero, statically_known_int_or_none]
      | succ p => simp [anyResolvedZero, statically_known_int_or_none, ih]

/-- Splitting off the two trailing dimensions of a shape written as a batch
part followed by two dimensions. -/
theorem splitLast2_append (b : List Dim) (p q : Dim) :
    splitLast2 (b ++ [p, q]) = some (b, p, q) := by
  unfold splitLast2
  rw [show (b ++ [p, q]).reverse = q :: p :: b.reverse by simp]
  simp

/-- The shape guard trivially succeeds on two copies of the same dimension. -/
theorem guard_equals_self (d : Dim) : guard_equals d d = .ok d := by
  cases d <;> simp [guard_equals]

/-- Guarding a batch-dimension list pairwise against itself succeeds and
returns it unchanged. -/
theorem mapM_guard_zip_self (b : List Dim) :
    (List.zip b b).mapM (fun p => guard_equals p.1 p.2) = .ok b := by
  induction b with
  | nil => rfl
  | cons d rest ih =>
    rw [List.zip_cons_cons, List.mapM_cons, guard_equals_self, ih]
    rfl

/-! ### Claim theorems -/

/-- Claim C1: the staticness classifier returns (true, product > 0) when
every dimension statically resolves, and (false, no-resolved-zero) when at
least one dimension does not resolve; on the three example shapes it returns
(true, false), (false, true) and (false, false) respectively. -/
theorem is_static_problem_spec :
    (∀ (lay : Layout) (ns : List Nat),
        statically_known_list_of_ints_or_none lay.size = some ns →
        _is_static_problem lay = (true, decide (0 < ns.prod)))
    ∧ (∀ lay : Layout,
        statically_known_list_of_ints_or_none lay.size = none →
        _is_static_problem lay = (false, decide (Dim.static 0 ∉ lay.size)))
    ∧ _is_static_problem ⟨0, .float32, [.static 4, .static 0, .static 8]⟩ = (true, false)
    ∧ _is_static_problem ⟨0, .float32, [.static 4, .dynamic, .static 8]⟩ = (false, true)
    ∧ _is_static_problem ⟨0, .float32, [.static 0, .dynamic]⟩ = (false, false) := by
  refine ⟨?_, ?_, by decide, by decide, by decide⟩
  · intro lay ns h
    simp only [_is_static_problem, h]
    simp [List.prod_eq_foldl, gt_iff_lt]
  · intro lay h
    simp only [_is_static_problem, h]
    simp [anyResolvedZero_eq, decide_not]

/-- Concrete application of the staticness-classifier theorem. -/
theorem is_static_problem_spec_witness :
    statically_known_list_of_ints_or_none
        (Layout.mk 0 .float32 [.static 2, .static 3]).size = some [2, 3]
    ∧ _is_static_problem ⟨0, .float32, [.static 2, .static 3]⟩
        = (true, decide (0 < ([2, 3] : List Nat).prod)) :=
  ⟨rfl, is_static_problem_spec.1 ⟨0, .float32, [.static 2, .static 3]⟩ [2, 3] rfl⟩

/-- Claim C2: for positive block sizes, the grid of the matmul templates is
the product of the two ceiling quotients in x, with y and z both 1. -/
theorem mm_grid_spec (m n : Nat) (meta : GridMeta)
    (hm : 0 < meta.BLOCK_M) (hn : 0 < meta.BLOCK_N) :
    mm_grid m n meta
      = (⌈(m : ℚ) / meta.BLOCK_M⌉₊ * ⌈(n : ℚ) / meta.BLOCK_N⌉₊, 1, 1) := by
  unfold mm_grid
  rw [cdiv_eq_ceil _ _ hm, cdiv_eq_ceil _ _ hn]

/-- Concrete application of the grid theorem. -/
theorem mm_grid_spec_witness :
    0 < (GridMeta.mk 32 16 0).BLOCK_M ∧ 0 < (GridMeta.mk 32 16 0).BLOCK_N ∧
    mm_grid 100 40 ⟨32, 16, 0⟩
      = (⌈(100 : ℚ) / 32⌉₊ * ⌈(40 : ℚ) / 16⌉₊, 1, 1) :=
  ⟨by decide, by decide, mm_grid_spec 100 40 ⟨32, 16, 0⟩ (by decide) (by decide)⟩

/-- Claim C3: for positive block sizes and a positive compute-unit count,
the persistent grid is the compute-unit count capped tile count in x, with
y and z both 1, and its x component never exceeds the compute-unit count. -/
theorem persistent_mm_grid_spec (M N : Nat) (meta : GridMeta)
    (hm : 0 < meta.BLOCK_M) (hn : 0 < meta.BLOCK_N) (_hc : 0 < meta.NUM_SMS) :
    persistent_mm_grid M N meta
      = (min meta.NUM_SMS
          (⌈(M : ℚ) / meta.BLOCK_M⌉₊ * ⌈(N : ℚ) / meta.BLOCK_N⌉₊), 1, 1)
    ∧ (persistent_mm_grid M N meta).1 ≤ meta.NUM_SMS := by
  constructor
  · unfold persistent_mm_grid
    rw [cdiv_eq_ceil _ _ hm, cdiv_eq_ceil _ _ hn]
  · exact min_le_left _ _

/-- Concrete application of the persistent-grid theorem. -/
theorem persistent_mm_grid_spec_witness :
    0 < (GridMeta.mk 32 16 8).BLOCK_M ∧ 0 < (GridMeta.mk 32 16 8).BLOCK_N ∧
    0 < (GridMeta.mk 32 16 8).NUM_SMS ∧
    (persistent_mm_grid 1000 1000 ⟨32, 16, 8⟩
        = (min 8 (⌈(1000 : ℚ) / 32⌉₊ * ⌈(1000 : ℚ) / 16⌉₊), 1, 1)
      ∧ (persistent_mm_grid 1000 1000 ⟨32, 16, 8⟩).1 ≤ 8) :=
  ⟨by decide, by decide, by decide,
    persistent_mm_grid_spec 1000 1000 ⟨32, 16, 8⟩ (by decide) (by decide) (by decide)⟩

/-- Claim C4: the EVEN_K flag of mm_options holds exactly when the
contraction dimension is divisible by BLOCK_K; in particular k = 128 with
BLOCK_K = 32 gives true and k = 130 with BLOCK_K = 32 gives false. -/
theorem mm_options_even_k_spec :
    (∀ (amb : Ambient) (cfg : TritonConfig) (m n k : Nat) (lay : Layout),
        (mm_options amb cfg m n k lay).EVEN_K = true ↔ cfg.BLOCK_K ∣ k)
    ∧ (mm_options ⟨true, false⟩ ⟨64, 64, 32, 2, 4⟩ 64 64 128
        ⟨0, .float32, [.static 64, .static 64]⟩).EVEN_K = true
    ∧ (mm_options ⟨true, false⟩ ⟨64, 64, 32, 2, 4⟩ 64 64 130
        ⟨0, .float32, [.static 64, .static 64]⟩).EVEN_K = false := by
  refine ⟨?_, by decide, by decide⟩
  intro amb cfg m n k lay
  simp only [mm_options, beq_iff_eq]
  constructor
  · intro h
    have hd := Nat.gcd_dvd_left k cfg.BLOCK_K
    rwa [h] at hd
  · intro h
    rw [Nat.gcd_comm]
    exact Nat.gcd_eq_left h

/-- Claim C5: the ALLOW_TF32 flag of mm_options is the hardware default
conjoined with: either force_same_precision is off, or all three dimensions
meet the alignment thresholds m % 16 = 0, n % 16 = 0 and k % 8 = 0. -/
theorem mm_options_allow_tf32_spec :
    ∀ (amb : Ambient) (cfg : TritonConfig) (m n k : Nat) (lay : Layout),
      (mm_options amb cfg m n k lay).ALLOW_TF32 = true
        ↔ amb.allow_tf32 = true
          ∧ (amb.force_same_precision = false
              ∨ (m % 16 = 0 ∧ n % 16 = 0 ∧ k % 8 = 0)) := by
  intro amb cfg m n k lay
  obtain ⟨atf, fsp⟩ := amb
  cases atf <;> cases fsp <;>
    simp [mm_options, Bool.and_eq_true, Bool.or_eq_true, beq_iff_eq,
      and_assoc]

/-- Claim C8: the fallback policy returns false whenever there are
candidates or the ATen backend is already enabled, and otherwise returns
the value of the autotune_fallback_to_aten flag. -/
theorem should_fallback_to_aten_spec :
    ∀ (cfg : FallbackConfig) (choices : List ChoiceCaller),
      (choices ≠ [] ∨ cfg.use_aten_gemm_kernels = true →
        should_fallback_to_aten cfg choices = false)
      ∧ (choices = [] → cfg.use_aten_gemm_kernels = false →
        should_fallback_to_aten cfg choices = cfg.autotune_fallback_to_aten) := by
  intro cfg choices
  obtain ⟨ua, fb⟩ := cfg
  constructor
  · rintro (h | h) <;>
      simp_all [should_fallback_to_aten, List.length_eq_zero]
  · rintro rfl rfl
    cases fb <;> simp [should_fallback_to_aten]

/-- Concrete application of the fallback-policy theorem: with no candidates,
ATen disabled and the fallback flag on, the policy says to fall back. -/
theorem should_fallback_to_aten_spec_witness :
    ([] : List ChoiceCaller) = [] ∧
    (FallbackConfig.mk false true).use_aten_gemm_kernels = false ∧
    should_fallback_to_aten ⟨false, true⟩ [] = true :=
  ⟨rfl, rfl, (should_fallback_to_aten_spec ⟨false, true⟩ []).2 rfl rfl⟩

/-- Claim C9: mm_options is deterministic: two invocations on identical
inputs, under the same ambient configuration, yield identical option
dictionaries. -/
theorem mm_options_deterministic :
    ∀ (a1 a2 : Ambient) (c1 c2 : TritonConfig) (m1 m2 n1 n2 k1 k2 : Nat)
      (l1 l2 : Layout),
      a1 = a2 → c1 = c2 → m1 = m2 → n1 = n2 → k1 = k2 → l1 = l2 →
      mm_options a1 c1 m1 n1 k1 l1 = mm_options a2 c2 m2 n2 k2 l2 := by
  rintro a1 _ c1 _ m1 _ n1 _ k1 _ l1 _ rfl rfl rfl rfl rfl rfl
  rfl

/-- Concrete application of the determinism theorem. -/
theorem mm_options_deterministic_witness :
    mm_options ⟨true, true⟩ ⟨64, 32, 16, 2, 4⟩ 128 128 64
        ⟨0, .float16, [.static 128, .static 128]⟩
      = mm_options ⟨true, true⟩ ⟨64, 32, 16, 2, 4⟩ 128 128 64
        ⟨0, .float16, [.static 128, .static 128]⟩ :=
  mm_options_deterministic _ _ _ _ _ _ _ _ _ _ _ _ rfl rfl rfl rfl rfl rfl

/-- Claim C10: the epilogue returned by addmm_epilogue adds the accumulator
scaled by alpha (only when alpha is not 1) to the bias scaled by beta (only
when beta is not 1); with alpha = beta = 1 it is exactly the sum, with no
scalar multiplication introduced. -/
theorem addmm_epilogue_spec :
    ∀ (dtype : DType) (alpha beta : ℚ) (acc bias : OpExpr),
      addmm_epilogue dtype alpha beta acc bias
        = OpExpr.add
            (if alpha = 1 then acc
              else OpExpr.mul acc (OpExpr.constant alpha dtype))
            (if beta = 1 then bias
              else OpExpr.mul bias (OpExpr.constant beta dtype))
      ∧ addmm_epilogue dtype 1 1 acc bias = OpExpr.add acc bias
      ∧ mulCount (addmm_epilogue dtype 1 1 acc bias)
          = mulCount acc + mulCount bias := by
  intro dtype alpha beta acc bias
  refine ⟨?_, by simp [addmm_epilogue], by simp [addmm_epilogue, mulCount]⟩
  by_cases ha : alpha = 1 <;> by_cases hb : beta = 1 <;>
    simp [addmm_epilogue, ha, hb]

/-- Claim C6 counterexample: with mat1 contraction 8 and mat2 contraction 4
under the doubled-contraction flag, mm_args succeeds (it doubles the RIGHT
contraction, 4 * 2 = 8), while the claimed behaviour of doubling the LEFT
contraction (8 * 2 = 16 against 4) fails the shape guard; the two disagree
on this concrete input. -/
theorem mm_args_use4x2_counterexample :
    (mm_args ⟨0, .float32, [.static 3, .static 8]⟩
        ⟨0, .float32, [.static 4, .static 5]⟩ [] none none true false
      ≠ mm_args_claimed ⟨0, .float32, [.static 3, .static 8]⟩
        ⟨0, .float32, [.static 4, .static 5]⟩ [] none none true false)
    ∧ Except.map MMArgsResult.k
        (mm_args ⟨0, .float32, [.static 3, .static 8]⟩
          ⟨0, .float32, [.static 4, .static 5]⟩ [] none none true false)
        = .ok (.static 8)
    ∧ mm_args_claimed ⟨0, .float32, [.static 3, .static 8]⟩
        ⟨0, .float32, [.static 4, .static 5]⟩ [] none none true false
        = .error .GuardViolation := by
  refine ⟨?_, rfl, rfl⟩
  intro h
  have h2 : Except.map MMArgsResult.k
      (mm_args ⟨0, .float32, [.static 3, .static 8]⟩
        ⟨0, .float32, [.static 4, .static 5]⟩ [] none none true false)
      = .ok (.static 8) := rfl
  rw [h] at h2
  exact Except.noConfusion h2

/-- Claim C6 (amended): when use_4x2_dim is set, mm_args behaves exactly as
the unflagged mm_args on a right operand whose contraction dimension has
been doubled beforehand (with the original right operand restored in the
returned tuple): the doubling applies to the contraction dimension of mat2,
not mat1. -/
theorem mm_args_use4x2_doubles_right (mat1 mat2 : TensorBox)
    (others : List TensorBox) (layout : Option Layout)
    (out_dtype : Option DType) (mt : Bool) :
    mm_args mat1 mat2 others layout out_dtype true mt
      = Except.map (fun r => { r with mat2 := mat2 })
          (mm_args mat1 (doubleContraction mt mat2) others layout
            out_dtype false mt) := by
  cases h1 : splitLast2 mat1.size with
  | none => simp [mm_args, h1, Except.map]
  | some t1 =>
    obtain ⟨b1, m, k1⟩ := t1
    cases h2 : splitLast2 mat2.size with
    | none =>
      have hd : doubleContraction mt mat2 = mat2 := by
        simp [doubleContraction, h2]
      rw [hd]
      simp [mm_args, h1, h2, Except.map]
    | some t2 =>
      obtain ⟨b2, d1, d2⟩ := t2
      cases mt with
      | false =>
        have hd : doubleContraction false mat2
            = { mat2 with size := b2 ++ [dimMulTwo d1, d2] } := by
          simp [doubleContraction, h2]
        have h2d : splitLast2 ({ mat2 with size := b2 ++ [dimMulTwo d1, d2] }
            : TensorBox).size = some (b2, dimMulTwo d1, d2) := by
          simp [splitLast2_append]
        rw [hd]
        simp only [mm_args, h1, h2, h2d]
        cases hb : (List.zip b1 b2).mapM (fun p => guard_equals p.1 p.2) with
        | error e => simp [Except.map]
        | ok b =>
          simp only [if_true, if_false, Bool.false_eq_true, ite_false, ite_true]
          cases hk : guard_equals k1 (dimMulTwo d1) with
          | error e => simp [hk, Except.map]
          | ok k =>
            cases layout with
            | none => simp [hk, Except.map]
            | some l =>
              cases out_dtype with
              | none => simp [hk, Except.map]
              | some dt => simp [hk, Except.map]
      | true =>
        have hd : doubleContraction true mat2
            = { mat2 with size := b2 ++ [d1, dimMulTwo d2] } := by
          simp [doubleContraction, h2]
        have h2d : splitLast2 ({ mat2 with size := b2 ++ [d1, dimMulTwo d2] }
            : TensorBox).size = some (b2, d1, dimMulTwo d2) := by
          simp [splitLast2_append]
        rw [hd]
        simp only [mm_args, h1, h2, h2d]
        cases hb : (List.zip b1 b2).mapM (fun p => guard_equals p.1 p.2) with
        | error e => simp [Except.map]
        | ok b =>
          simp only [if_true, if_false, Bool.false_eq_true, ite_false, ite_true]
          cases hk : guard_equals k1 (dimMulTwo d2) with
          | error e => simp [hk, Except.map]
          | ok k =>
            cases layout with
            | none => simp [hk, Except.map]
            | some l =>
              cases out_dtype with
              | none => simp [hk, Except.map]
              | some dt => simp [hk, Except.map]

/-- Claim C7: on compatible shapes, mm_args with no caller layout builds the
output layout with size batch ++ [m, n] and dtype defaulting to the dtype of
mat1 (or the supplied out_dtype); supplying a layout alone succeeds with
that layout, and supplying both a layout and an out_dtype is the one and
only layout/out_dtype combination that fails, with
ConflictingSpecification. -/
theorem mm_args_layout_spec (dev1 dev2 : Nat) (dt1 dt2 : DType)
    (b : List Dim) (m k1 d1 d2 : Dim) (others : List TensorBox)
    (u mt : Bool) (k : Dim) (dtE : DType) (L : Layout)
    (hk : guard_equals k1
        (if u then dimMulTwo (if mt then d2 else d1)
          else (if mt then d2 else d1)) = .ok k) :
    (mm_args ⟨dev1, dt1, b ++ [m, k1]⟩ ⟨dev2, dt2, b ++ [d1, d2]⟩ others
        none none u mt
      = .ok ⟨m, (if mt then d1 else d2), k,
          ⟨dev1, dt1, b ++ [m, (if mt then d1 else d2)]⟩,
          ⟨dev1, dt1, b ++ [m, k1]⟩, ⟨dev2, dt2, b ++ [d1, d2]⟩,
          others.map fun t =>
            { t with size := b ++ [m, (if mt then d1 else d2)] }⟩)
    ∧ (mm_args ⟨dev1, dt1, b ++ [m, k1]⟩ ⟨dev2, dt2, b ++ [d1, d2]⟩ others
        none (some dtE) u mt
      = .ok ⟨m, (if mt then d1 else d2), k,
          ⟨dev1, dtE, b ++ [m, (if mt then d1 else d2)]⟩,
          ⟨dev1, dt1, b ++ [m, k1]⟩, ⟨dev2, dt2, b ++ [d1, d2]⟩,
          others.map fun t =>
            { t with size := b ++ [m, (if mt then d1 else d2)] }⟩)
    ∧ (mm_args ⟨dev1, dt1, b ++ [m, k1]⟩ ⟨dev2, dt2, b ++ [d1, d2]⟩ others
        (some L) none u mt
      = .ok ⟨m, (if mt then d1 else d2), k, L,
          ⟨dev1, dt1, b ++ [m, k1]⟩, ⟨dev2, dt2, b ++ [d1, d2]⟩,
          others.map fun t => { t with size := L.size }⟩)
    ∧ (mm_args ⟨dev1, dt1, b ++ [m, k1]⟩ ⟨dev2, dt2, b ++ [d1, d2]⟩ others
        (some L) (some dtE) u mt
      = .error .ConflictingSpecification) := by
  refine ⟨?_, ?_, ?_, ?_⟩ <;>
    simp only [mm_args, splitLast2_append, mapM_guard_zip_self, hk,
      Option.getD]

/-- Concrete application of the layout/out_dtype theorem: on a compatible
batched pair of operands the default layout takes the dtype of mat1 and the
size batch ++ [m, n], while supplying both a layout and an out_dtype fails
with ConflictingSpecification. -/
theorem mm_args_layout_spec_witness :
    guard_equals (Dim.static 4) (Dim.static 4) = .ok (.static 4)
    ∧ mm_args ⟨0, .float16, [.static 2, .static 3, .static 4]⟩
        ⟨1, .float32, [.static 2, .static 4, .static 5]⟩ [] none none
        false false
      = .ok ⟨.static 3, .static 5, .static 4,
          ⟨0, .float16, [.static 2, .static 3, .static 5]⟩,
          ⟨0, .float16, [.static 2, .static 3, .static 4]⟩,
          ⟨1, .float32, [.static 2, .static 4, .static 5]⟩, []⟩
    ∧ mm_args ⟨0, .float16, [.static 2, .static 3, .static 4]⟩
        ⟨1, .float32, [.static 2, .static 4, .static 5]⟩ []
        (some ⟨7, .int32, [.dynamic]⟩) (some .float64) false false
      = .error .ConflictingSpecification :=
  ⟨rfl,
    (mm_args_layout_spec 0 1 .float16 .float32 [.static 2] (.static 3)
      (.static 4) (.static 4) (.static 5) [] false false (.static 4)
      .float64 ⟨7, .int32, [.dynamic]⟩ rfl).1,
    (mm_args_layout_spec 0 1 .float16 .float32 [.static 2] (.static 3)
      (.static 4) (.static 4) (.static 5) [] false false (.static 4)
      .float64 ⟨7, .int32, [.dynamic]⟩ rfl).2.2.2⟩

end MMCommon
